import Mathlib

/-!
Verification of `docs/fasm-ebook/serve.py`, a small static HTTP file server:
it subclasses the standard-library static file handler to add three CORS
headers on every finalized response and to override the content type for
`.md` and `.json` paths, then serves the directory containing the program
on port 8000 until interrupted.
-/

namespace Serve

/-- Python `str.endswith`, modelled as a suffix test on the character list
of the string (case-sensitive, exact suffix match). -/
def endswith (s suffix : String) : Bool :=
  decide (suffix.data <:+ s.data)

/-- The constant `PORT = 8000` (serve.py line 17). It is a literal: no flag,
argument or environment variable is consulted anywhere in the program. -/
def PORT : Nat := 8000

/-- The three CORS headers added in `MyHTTPRequestHandler.end_headers`
(serve.py lines 21-23), in the order they are sent. -/
def corsHeaders : List (String × String) :=
  [("Access-Control-Allow-Origin", "*"),
   ("Access-Control-Allow-Methods", "GET, POST, OPTIONS"),
   ("Access-Control-Allow-Headers", "Content-Type")]

/-- `MyHTTPRequestHandler.end_headers` (serve.py lines 20-25): whatever
headers the response has accumulated so far, the override unconditionally
appends the three CORS headers and then flushes via the base class. -/
def end_headers (sent : List (String × String)) : List (String × String) :=
  sent ++ corsHeaders

/-- An HTTP response: status code, finalized header list, body bytes. -/
structure Response where
  status : Nat
  headers : List (String × String)
  body : List Nat
deriving DecidableEq

/-- Finalizing a response: the handler finishes every response - success or
error alike - by running its header block through `end_headers`. -/
def finalizeResponse (status : Nat) (sent : List (String × String))
    (body : List Nat) : Response :=
  ⟨status, end_headers sent, body⟩

/-- `MyHTTPRequestHandler.guess_type` (serve.py lines 27-34): first obtain
the inherited extension-to-MIME-type guess, then return `text/markdown`
when the path ends in `.md`, else `application/json` when it ends in
`.json`, else the inherited guess. -/
def guess_type (inherited : String → String) (path : String) : String :=
  let mimetype := inherited path
  if endswith path ".md" then "text/markdown"
  else if endswith path ".json" then "application/json"
  else mimetype

/-- Modelled from the spec: the inherited `SimpleHTTPRequestHandler` GET
handling, whose code is not under src/ (only the subclass is). Per the
spec: resolve the request path; when resolution yields an existing
readable file, respond 200 with the file bytes on disk and a Content-Type
from `guess_type`; otherwise respond with the standard not-found status
404. Both branches finalize through `end_headers`. The filesystem is
abstracted as a partial map from resolved paths to file bytes. -/
def handleGET (inherited : String → String) (fs : String → Option (List Nat))
    (notFoundBody : List Nat) (p : String) : Response :=
  match fs p with
  | some bytes => finalizeResponse 200 [("Content-Type", guess_type inherited p)] bytes
  | none => finalizeResponse 404 [("Content-Type", "text/html;charset=utf-8")] notFoundBody

/-- The startup environment the process meets: whether the content root
exists, whether it is readable, and whether port 8000 can be bound. -/
structure Env where
  rootExists : Bool
  rootReadable : Bool
  portAvailable : Bool
deriving DecidableEq

/-- Outcome of process startup: serving, or exited with a code. -/
inductive StartupOutcome where
  | started
  | failed (exitCode : Nat)
deriving DecidableEq

/-- Modelled from the spec: the startup sequence of serve.py. The
`os.chdir(ebook_dir)` on line 15 fails when the content root is missing or
unreadable; the `socketserver.TCPServer(("", PORT), ...)` construction on
line 43 fails when the port is unavailable. Either failure is an uncaught
exception, so the process exits with the interpreter default nonzero
status 1; otherwise the server is up. -/
def startup (e : Env) : StartupOutcome :=
  if e.rootExists && e.rootReadable then
    if e.portAvailable then StartupOutcome.started else StartupOutcome.failed 1
  else StartupOutcome.failed 1

/-- Modelled from the spec: the diagnostic output of a failing startup.
Per the spec, a startup failure is fatal and the process exits immediately
with a nonzero status and a diagnostic message: either failing operation
raises an uncaught exception, and the interpreter prints a traceback
naming the error before exiting. A successful startup prints no
diagnostic. -/
def startupStderr (e : Env) : List String :=
  if e.rootExists && e.rootReadable then
    if e.portAvailable then []
    else ["Traceback (most recent call last): OSError: port 8000 unavailable"]
  else ["Traceback (most recent call last): os.chdir: content root missing or unreadable"]

/-- The server configuration: listening port, bind host ("" binds all
interfaces in Python), and content root directory. -/
structure Config where
  port : Nat
  host : String
  root : String
deriving DecidableEq

/-- The configuration serve.py runs with, as a function of the command-line
arguments, the process environment and the directory containing the
program file. The body ignores `args` and `env`, because the source reads
neither: the port is the literal `PORT = 8000` (line 17), the bind host is
the literal `""` (line 43, all interfaces), and the content root is
`Path(__file__).parent` (line 14), fixed by `os.chdir` at process start
(line 15). -/
def serverConfig (args : List String) (env : List (String × String))
    (scriptDir : String) : Config :=
  ⟨PORT, "", scriptDir⟩

/-- The startup lines printed by the `__main__` block (serve.py lines
37-40), with the f-string holes resolved at `PORT = 8000` and the content
root. -/
def startupLines (root : String) : List String :=
  ["Starting FASM eBook server on port 8000",
   "Serving from: " ++ root,
   "Open your browser to: http://localhost:8000",
   "Press Ctrl+C to stop the server"]

/-- The shutdown message printed on KeyboardInterrupt (serve.py line 46). -/
def shutdownMessage : String := "\nServer stopped."

/-- Modelled from the spec: the `__main__` run after a successful bind.
`serve_forever` loops until an interrupt arrives; the interrupt raises
KeyboardInterrupt, which the except branch (lines 45-47) turns into the
shutdown print and `sys.exit(0)`. Result: the print messages written to
stdout, and the exit status (`none` means still serving). -/
def mainRun (root : String) (interrupted : Bool) : List String × Option Nat :=
  if interrupted then (startupLines root ++ [shutdownMessage], some 0)
  else (startupLines root, none)

/- Helper lemmas (shared, not named by any claim). -/

/-- Unfolding of the suffix test. -/
theorem endswith_iff {s suffix : String} :
    endswith s suffix = true ↔ suffix.data <:+ s.data := by
  simp [endswith]

/-- A path ending in `.json` cannot also end in `.md`: two suffixes of the
same list are comparable, and neither of the two literals is a suffix of
the other. -/
theorem not_endswith_md_of_endswith_json {p : String}
    (h : endswith p ".json" = true) : endswith p ".md" = false := by
  by_contra hmd
  rw [Bool.not_eq_false] at hmd
  have h1 := endswith_iff.mp h
  have h2 := endswith_iff.mp hmd
  rcases List.suffix_or_suffix_of_suffix h1 h2 with hc | hc <;>
    exact absurd hc (by decide)

/-- A string cannot end in two incomparable suffixes: when it ends in `a`,
and neither of `a` and `b` is a suffix of the other, it does not end in
`b`. -/
theorem endswith_excludes {p a b : String} (ha : endswith p a = true)
    (hab : ¬ a.data <:+ b.data) (hba : ¬ b.data <:+ a.data) :
    endswith p b = false := by
  by_contra hb
  rw [Bool.not_eq_false] at hb
  rcases List.suffix_or_suffix_of_suffix (endswith_iff.mp ha) (endswith_iff.mp hb) with
    hc | hc
  · exact hab hc
  · exact hba hc

/- Claim theorems. -/

/-- Claim C1: every HTTP response the handler finalizes - success and error
responses alike, including the not-found response - carries all three CORS
headers with exactly the stated values; the header-augmentation step is
unconditional and occurs at response finalization. The statement quantifies
over arbitrary status, prior headers and body, so it covers every response
`finalizeResponse` (that is, `end_headers`) ever produces, the 200 and the
404 branches of `handleGET` among them. -/
theorem cors_headers_unconditional (status : Nat) (sent : List (String × String))
    (body : List Nat) :
    ("Access-Control-Allow-Origin", "*") ∈ (finalizeResponse status sent body).headers ∧
    ("Access-Control-Allow-Methods", "GET, POST, OPTIONS") ∈
      (finalizeResponse status sent body).headers ∧
    ("Access-Control-Allow-Headers", "Content-Type") ∈
      (finalizeResponse status sent body).headers := by
  refine ⟨?_, ?_, ?_⟩ <;> simp [finalizeResponse, end_headers, corsHeaders]

/-- Claim C2: for every request path ending in `.md`, the Content-Type
chosen is exactly `text/markdown`, regardless of what the inherited
extension-to-MIME-type lookup would return. -/
theorem md_paths_get_text_markdown (inherited : String → String) (p : String)
    (h : endswith p ".md" = true) : guess_type inherited p = "text/markdown" := by
  simp [guess_type, h]

/-- Witness for C2 at the concrete path README.md with an inherited lookup
that would have said text/plain. -/
theorem md_paths_get_text_markdown_witness :
    endswith "README.md" ".md" = true ∧
    guess_type (fun _ => "text/plain") "README.md" = "text/markdown" :=
  ⟨by decide, md_paths_get_text_markdown (fun _ => "text/plain") "README.md" (by decide)⟩

/-- Claim C3: for every request path ending in `.json`, the Content-Type
chosen is exactly `application/json`. -/
theorem json_paths_get_application_json (inherited : String → String) (p : String)
    (h : endswith p ".json" = true) : guess_type inherited p = "application/json" := by
  simp [guess_type, h, not_endswith_md_of_endswith_json h]

/-- Witness for C3 at the concrete path data.json. -/
theorem json_paths_get_application_json_witness :
    endswith "data.json" ".json" = true ∧
    guess_type (fun _ => "text/plain") "data.json" = "application/json" :=
  ⟨by decide, json_paths_get_application_json (fun _ => "text/plain") "data.json" (by decide)⟩

/-- Claim C4: for every request path ending in neither `.md` nor `.json`,
the Content-Type chosen equals the inherited lookup result, unchanged. -/
theorem other_paths_get_inherited_type (inherited : String → String) (p : String)
    (hmd : endswith p ".md" = false) (hjson : endswith p ".json" = false) :
    guess_type inherited p = inherited p := by
  simp [guess_type, hmd, hjson]

/-- Witness for C4 at the concrete path index.html. -/
theorem other_paths_get_inherited_type_witness :
    endswith "index.html" ".md" = false ∧
    endswith "index.html" ".json" = false ∧
    guess_type (fun _ => "text/html") "index.html" = "text/html" :=
  ⟨by decide, by decide,
    other_paths_get_inherited_type (fun _ => "text/html") "index.html"
      (by decide) (by decide)⟩

/-- Claim C5: for every request path whose static-file resolution yields an
existing readable file, the response has status 200 and its body bytes
equal the bytes on disk. -/
theorem existing_file_served_200 (inherited : String → String)
    (fs : String → Option (List Nat)) (notFoundBody : List Nat)
    (p : String) (b : List Nat) (h : fs p = some b) :
    (handleGET inherited fs notFoundBody p).status = 200 ∧
    (handleGET inherited fs notFoundBody p).body = b := by
  simp [handleGET, h, finalizeResponse]

/-- Witness for C5: a one-file filesystem holding README.md with bytes
35 32 72 (the text starting a markdown heading). -/
theorem existing_file_served_200_witness :
    (fun q => if q = "/README.md" then some [35, 32, 72] else (none : Option (List Nat)))
        "/README.md" = some [35, 32, 72] ∧
    (handleGET (fun _ => "text/plain")
        (fun q => if q = "/README.md" then some [35, 32, 72] else none)
        [] "/README.md").status = 200 ∧
    (handleGET (fun _ => "text/plain")
        (fun q => if q = "/README.md" then some [35, 32, 72] else none)
        [] "/README.md").body = [35, 32, 72] :=
  ⟨by decide,
    existing_file_served_200 (fun _ => "text/plain")
      (fun q => if q = "/README.md" then some [35, 32, 72] else none)
      [] "/README.md" [35, 32, 72] (by decide)⟩

/-- Claim C6 counterexample: missing or unreadable content root is NOT the
only startup-time failure condition. In the environment where the root
exists and is readable but the port is unavailable, startup still fails,
refuting the claimed exclusivity. -/
theorem startup_failure_not_only_root :
    ¬ (∀ e : Env, startup e ≠ StartupOutcome.started →
        e.rootExists = false ∨ e.rootReadable = false) := by
  intro h
  rcases h ⟨true, true, false⟩ (by decide) with h1 | h1 <;> exact absurd h1 (by decide)

/-- Claim C6 as amended: a missing or unreadable content root makes the
process fail to start, exiting with nonzero status 1 and a diagnostic
message; port unavailability is the one other startup-time failure
condition, likewise exiting nonzero with a diagnostic message. Startup
succeeds exactly when the root exists, is readable, and the port can be
bound, and every startup failure exits with status 1 and prints a
diagnostic. -/
theorem startup_failure_conditions (e : Env) :
    (startup e = StartupOutcome.started ↔
      e.rootExists = true ∧ e.rootReadable = true ∧ e.portAvailable = true) ∧
    ((e.rootExists = false ∨ e.rootReadable = false) →
      startup e = StartupOutcome.failed 1 ∧ startupStderr e ≠ []) ∧
    (startup e ≠ StartupOutcome.started →
      startup e = StartupOutcome.failed 1 ∧ startupStderr e ≠ []) := by
  rcases e with ⟨re, rr, pa⟩
  cases re <;> cases rr <;> cases pa <;> decide

/-- Witness for C6 amended: a concrete environment with a missing root
fails with exit status 1 and a nonempty diagnostic. -/
theorem startup_failure_conditions_witness :
    (Env.rootExists ⟨false, true, true⟩ = false ∨
      Env.rootReadable ⟨false, true, true⟩ = false) ∧
    startup ⟨false, true, true⟩ = StartupOutcome.failed 1 ∧
    startupStderr ⟨false, true, true⟩ ≠ [] :=
  ⟨Or.inl rfl, (startup_failure_conditions ⟨false, true, true⟩).2.1 (Or.inl rfl)⟩

/-- Claim C7: when an interrupt arrives while the server is running, the
process prints the shutdown message and exits with status 0. -/
theorem interrupt_clean_shutdown (root : String) :
    (mainRun root true).2 = some 0 ∧ shutdownMessage ∈ (mainRun root true).1 := by
  constructor
  · rfl
  · simp [mainRun]

/-- Claim C8: the server binds all interfaces (host "") on the fixed port
8000, whatever the arguments and environment are; the content root is the
directory containing the program, fixed at process start. -/
theorem fixed_port_host_root (args : List String) (env : List (String × String))
    (scriptDir : String) :
    (serverConfig args env scriptDir).port = 8000 ∧
    (serverConfig args env scriptDir).host = "" ∧
    (serverConfig args env scriptDir).root = scriptDir ∧
    PORT = 8000 :=
  ⟨rfl, rfl, rfl, rfl⟩

/-- Claim C9 counterexample: the program writes four startup lines, not
three - besides the port, content root and connection URL it also prints
the Ctrl+C hint line (serve.py line 40). -/
theorem startup_lines_not_three :
    (startupLines "/srv/fasm-ebook").length = 4 ∧
    (startupLines "/srv/fasm-ebook").length ≠ 3 := by
  constructor <;> simp [startupLines]

/-- Claim C9 as amended: on a normal run the program writes exactly four
startup lines (the port line, the content root line, the connection URL
line, and the Ctrl+C hint) and exactly one shutdown message, nothing else
and no structured logging. -/
theorem startup_and_shutdown_output (root : String) (interrupted : Bool) :
    (startupLines root).length = 4 ∧
    (mainRun root interrupted).1 =
      startupLines root ++ (if interrupted then [shutdownMessage] else []) ∧
    [shutdownMessage].length = 1 := by
  refine ⟨by simp [startupLines], ?_, rfl⟩
  cases interrupted <;> simp [mainRun]

/-- Claim C10: the `.md` and `.json` suffix checks are case-sensitive and
checked in that order: on paths ending in `.MD` or `.Json` neither
override fires and the inherited lookup result is returned, and a path
ending in `.md` is always mapped to `text/markdown`, never to
`application/json`. -/
theorem suffix_checks_case_sensitive_ordered (inherited : String → String) :
    (∀ p : String, endswith p ".MD" = true → guess_type inherited p = inherited p) ∧
    (∀ p : String, endswith p ".Json" = true → guess_type inherited p = inherited p) ∧
    (∀ p : String, endswith p ".md" = true →
      guess_type inherited p = "text/markdown" ∧
      guess_type inherited p ≠ "application/json") := by
  refine ⟨fun p h => ?_, fun p h => ?_,
    fun p h => ⟨by simp [guess_type, h], by simp [guess_type, h]⟩⟩
  · have hmd : endswith p ".md" = false := endswith_excludes h (by decide) (by decide)
    have hjson : endswith p ".json" = false := endswith_excludes h (by decide) (by decide)
    simp [guess_type, hmd, hjson]
  · have hmd : endswith p ".md" = false := endswith_excludes h (by decide) (by decide)
    have hjson : endswith p ".json" = false := endswith_excludes h (by decide) (by decide)
    simp [guess_type, hmd, hjson]

/-- Witness for C10: concrete uppercase and mixed-case paths keep the
inherited type, and a concrete lowercase path is not application/json. -/
theorem suffix_checks_case_sensitive_ordered_witness :
    endswith "README.MD" ".MD" = true ∧
    guess_type (fun _ => "text/x-default") "README.MD" = "text/x-default" ∧
    endswith "notes.Json" ".Json" = true ∧
    guess_type (fun _ => "text/x-default") "notes.Json" = "text/x-default" ∧
    endswith "a.md" ".md" = true ∧
    guess_type (fun _ => "text/x-default") "a.md" ≠ "application/json" := by
  have h := suffix_checks_case_sensitive_ordered (fun _ => "text/x-default")
  exact ⟨by decide, h.1 "README.MD" (by decide), by decide,
    h.2.1 "notes.Json" (by decide), by decide, (h.2.2 "a.md" (by decide)).2⟩

end Serve
